import Mathlib

/-!
Shallow embedding of `hw4.py`, a command-driven reporting tool over county
demographic records, together with proofs about the claims of its
specification.

Modelling conventions:
* Python dictionaries of numbers become association lists `List (String × ℚ)`;
  numeric values (ints and floats) are idealised as rationals `ℚ`.
* Python exceptions become an explicit `PyError` type threaded through
  `Except`; an uncaught exception surfaces as an `Except.error` result.
* `str.split(sep)` for a one-character separator is modelled char-by-char by
  `splitSep`, and `sep.join` by `joinSep`, matching CPython semantics
  (`"".split(".") == [""]`, `"a..b".split(".") == ["a","","b"]`).
* Printing is modelled by a trace of structured output events (`Out`); the
  exact rendered text is kept for the strings the source builds itself
  (e.g. the `%.15f`-with-stripping formatting), while `display`'s per-record
  report and the shortest-round-trip `repr` of floats stay structural.
-/

namespace Hw4

/-- One county record, mirroring the `CountyDemographics` objects the
dataset provider returns: a county name, a state, and five nested
string-to-number mappings. -/
structure CountyDemographics where
  county : String
  state : String
  population : List (String × ℚ)
  age : List (String × ℚ)
  education : List (String × ℚ)
  ethnicities : List (String × ℚ)
  income : List (String × ℚ)
deriving DecidableEq, Repr

/-- The Python exceptions the program can raise: `ValueError` (with its
message), `IndexError` (from indexing `parts`), and `KeyError` (with the
missing key) from a dictionary subscript. -/
inductive PyError where
  | valueError (msg : String)
  | indexError
  | keyError (key : String)
deriving DecidableEq, Repr

/-- Python `str.split(sep)` for a single-character separator, on the
character list of the string.  Never returns `[]`. -/
def splitSep (sep : Char) : List Char → List (List Char)
  | [] => [[]]
  | c :: cs =>
    let r := splitSep sep cs
    if c = sep then [] :: r
    else
      match r with
      | [] => [[c]]
      | g :: gs => (c :: g) :: gs

/-- Python `sep.join(parts)` for a single-character separator. -/
def joinSep (sep : Char) : List (List Char) → List Char
  | [] => []
  | [g] => g
  | g :: gs => g ++ sep :: joinSep sep gs

/-- Dictionary lookup `d[k]`: the value at the first matching key, or a
`KeyError` naming the key, as in Python. -/
def dictLookup (d : List (String × ℚ)) (k : String) : Except PyError ℚ :=
  match d.find? (fun p => p.1 = k) with
  | some p => Except.ok p.2
  | none => Except.error (PyError.keyError k)

/-- Dictionary lookup with default, `d.get(k, v)`. -/
def dictGetD (d : List (String × ℚ)) (k : String) (v : ℚ) : ℚ :=
  match d.find? (fun p => p.1 = k) with
  | some p => p.2
  | none => v

/-- Source `get_field_value(entry, field)`: split `field` on `"."`,
take `parts[0]` as the category and `".".join(parts[1:])` as the key, then
subscript the matching mapping; an unmatched category raises
`ValueError(f"Field '{field}' not found in entry.")`, a missing key raises
`KeyError`. -/
def get_field_value (entry : CountyDemographics) (field : String) :
    Except PyError ℚ :=
  let parts := splitSep '.' field.data
  let cat := String.mk (parts.headD [])
  let key := String.mk (joinSep '.' parts.tail)
  if cat = "Education" then dictLookup entry.education key
  else if cat = "Ethnicities" then dictLookup entry.ethnicities key
  else if cat = "Income" then dictLookup entry.income key
  else if cat = "Population" then dictLookup entry.population key
  else Except.error (PyError.valueError ("Field '" ++ field ++ "' not found in entry."))

/-- The whitespace characters Python's `str.strip()` removes. -/
def isPySpace (c : Char) : Bool :=
  c = ' ' ∨ c = '\t' ∨ c = '\n' ∨ c = '\x0d' ∨ c = '\x0b' ∨ c = '\x0c'

/-- Python `str.strip()`: drop leading and trailing whitespace. -/
def pyStrip (s : String) : String :=
  String.mk (((s.data.dropWhile isPySpace).reverse.dropWhile isPySpace).reverse)

/-- Digits of a character list interpreted in base 10. -/
def natOfDigits (l : List Char) : ℕ :=
  l.foldl (fun acc c => acc * 10 + (c.toNat - 48)) 0

/-- Python `float(s)` for the plain decimal literals the scripts use: optional
surrounding whitespace, an optional sign, then digits with at most one
decimal point (at least one digit overall).  `none` models the
`ValueError` Python raises on any other string.  (The exponent, `inf` and
`nan` forms of the builtin are not modelled; no claim depends on them.) -/
def pyFloat (s : String) : Option ℚ :=
  let t := (pyStrip s).data
  let (sgn, body) : ℚ × List Char :=
    match t with
    | '-' :: rest => (-1, rest)
    | '+' :: rest => (1, rest)
    | _ => (1, t)
  match splitSep '.' body with
  | [ip] =>
      if ip ≠ [] ∧ ip.all Char.isDigit then
        some (sgn * (natOfDigits ip : ℚ))
      else none
  | [ip, fp] =>
      if ip ++ fp ≠ [] ∧ ip.all Char.isDigit ∧ fp.all Char.isDigit then
        some (sgn * ((natOfDigits ip : ℚ) + (natOfDigits fp : ℚ) / 10 ^ fp.length))
      else none
  | _ => none

/-- Decimal digits of a natural number (auxiliary, fuel-driven). -/
def natDigitsAux : ℕ → ℕ → List Char
  | 0, _ => []
  | fuel + 1, n =>
      if n = 0 then []
      else natDigitsAux fuel (n / 10) ++ [Char.ofNat (48 + n % 10)]

/-- Decimal digit string of a natural number. -/
def natDigits (n : ℕ) : List Char :=
  if n = 0 then ['0'] else natDigitsAux (n + 1) n

/-- Left-pad with `'0'` to length `n`. -/
def padZeros (l : List Char) (n : ℕ) : List Char :=
  List.replicate (n - l.length) '0' ++ l

/-- Python `s.rstrip(c)` for a one-character argument. -/
def rstripChar (c : Char) (l : List Char) : List Char :=
  (l.reverse.dropWhile (fun x => x = c)).reverse

/-- The source's `f"{x:.15f}".rstrip('0').rstrip('.')`: render with exactly
15 fractional digits (rounded to nearest; the tie goes up rather than
to even, a difference no claim exercises), then strip trailing zeros and a
dangling decimal point. -/
def fmt15 (q : ℚ) : String :=
  let n : ℤ := ⌊q * 10 ^ 15 + 1 / 2⌋
  let sgn : List Char := if n < 0 then ['-'] else []
  let m := n.natAbs
  let ipart := natDigits (m / 10 ^ 15)
  let fpart := padZeros (natDigits (m % 10 ^ 15)) 15
  String.mk (rstripChar '.' (rstripChar '0' (sgn ++ ipart ++ '.' :: fpart)))

/-- One printed output event.  `displayOut` stands for the fixed-format
multi-line report `display` prints for each record of the dataset it is
given; `errMsg m` is a line `"Error: <m>"` printed by the nested handlers in
`population_field`/`percent_field`; `malformed n t` is the line
`"Error: Malformed line <n>: <t>"` printed by the per-line handler.
`percentZeroOut` is the fixed `"2014 <field> percentage: 0.000000"` line and
`percentOut` carries the value printed via `repr(percentage)`. -/
inductive Out where
  | displayOut (data : List CountyDemographics)
  | filterStateOut (state : String) (count : ℕ)
  | filterGtOut (field : String) (value : ℚ) (count : ℕ)
  | filterLtOut (field : String) (value : ℚ) (count : ℕ)
  | populationTotalOut (total : ℚ)
  | populationFieldOut (field : String) (valueStr : String)
  | percentOut (field : String) (value : ℚ)
  | percentZeroOut (field : String)
  | errMsg (msg : String)
  | malformed (lineNo : ℕ) (text : String)
deriving DecidableEq, Repr

/-- Source `filter_state(data, state)`: keep the records whose state equals
`state` (never fails). -/
def filter_state (data : List CountyDemographics) (state : String) :
    List CountyDemographics :=
  data.filter (fun entry => entry.state = state)

/-- Source `filter_gt(data, field, value)`, whose list comprehension is
`[entry for entry in data if get_field_value(entry, field) > value]`:
records are examined in order and the first field-resolution failure
aborts the whole comprehension with that error. -/
def filter_gt (data : List CountyDemographics) (field : String) (value : ℚ) :
    Except PyError (List CountyDemographics) :=
  match data with
  | [] => Except.ok []
  | entry :: rest =>
    match get_field_value entry field with
    | Except.error e => Except.error e
    | Except.ok x =>
      match filter_gt rest field value with
      | Except.error e => Except.error e
      | Except.ok l => Except.ok (if x > value then entry :: l else l)

/-- Source `filter_lt(data, field, value)`: as `filter_gt` with a strictly-less
comparison. -/
def filter_lt (data : List CountyDemographics) (field : String) (value : ℚ) :
    Except PyError (List CountyDemographics) :=
  match data with
  | [] => Except.ok []
  | entry :: rest =>
    match get_field_value entry field with
    | Except.error e => Except.error e
    | Except.ok x =>
      match filter_lt rest field value with
      | Except.error e => Except.error e
      | Except.ok l => Except.ok (if x < value then entry :: l else l)

/-- Source expression `sum(entry.population.get("2014 Population", 0) for entry in data)`. -/
def totalPopulation (data : List CountyDemographics) : ℚ :=
  (data.map (fun entry => dictGetD entry.population "2014 Population" 0)).sum

/-- The generator summed inside `population_field`/`percent_field`:
`Σ population["2014 Population"] * (get_field_value(entry, field) / 100)`,
aborting with the first field-resolution failure. -/
def subPopulation (data : List CountyDemographics) (field : String) :
    Except PyError ℚ :=
  match data with
  | [] => Except.ok 0
  | entry :: rest =>
    match get_field_value entry field with
    | Except.error e => Except.error e
    | Except.ok x =>
      match subPopulation rest field with
      | Except.error e => Except.error e
      | Except.ok s =>
        Except.ok (dictGetD entry.population "2014 Population" 0 * (x / 100) + s)

/-- Source `population_field(data, field)`: print the formatted sub-population; a
`ValueError` raised while summing is caught by the function's own
`except ValueError` and printed as `"Error: <message>"`; any other
exception (a `KeyError` from a missing key) propagates to the caller. -/
def population_field (data : List CountyDemographics) (field : String) :
    Except PyError Out :=
  match subPopulation data field with
  | Except.ok sub =>
      Except.ok (Out.populationFieldOut field (fmt15 sub))
  | Except.error (PyError.valueError m) => Except.ok (Out.errMsg m)
  | Except.error e => Except.error e

/-- Source `percent_field(data, field)`: print
`(sub_population / total_population) * 100` when the total population is
positive and the fixed `0.000000` text otherwise; `ValueError` is caught
and printed as `"Error: <message>"`, anything else propagates. -/
def percent_field (data : List CountyDemographics) (field : String) :
    Except PyError Out :=
  let total := totalPopulation data
  match subPopulation data field with
  | Except.ok sub =>
      Except.ok (if total > 0 then Out.percentOut field (sub / total * 100)
                 else Out.percentZeroOut field)
  | Except.error (PyError.valueError m) => Except.ok (Out.errMsg m)
  | Except.error e => Except.error e

/-- The body of the `try:` block that `execute_operations` runs for one
non-blank, already-stripped line: split on `":"`, dispatch on the opcode
(`parts[0]`), and either produce printed output and the next dataset or
raise.  `parts[i]` beyond the end raises `IndexError`; a non-numeric
threshold raises `ValueError` (from `float`); an unmatched opcode raises
`ValueError("Unknown operation")`. -/
def execLineCore (data : List CountyDemographics) (line : String) :
    Except PyError (List Out × List CountyDemographics) :=
  let parts := (splitSep ':' line.data).map String.mk
  let op := parts.headD ""
  if op = "display" then
    Except.ok ([Out.displayOut data], data)
  else if op = "filter-state" then
    match parts[1]? with
    | none => Except.error PyError.indexError
    | some state =>
      let filtered := filter_state data state
      Except.ok ([Out.filterStateOut state filtered.length], filtered)
  else if op = "filter-gt" then
    match parts[1]? with
    | none => Except.error PyError.indexError
    | some field =>
      match parts[2]? with
      | none => Except.error PyError.indexError
      | some vs =>
        match pyFloat vs with
        | none => Except.error
            (PyError.valueError ("could not convert string to float: '" ++ vs ++ "'"))
        | some value =>
          match filter_gt data field value with
          | Except.error e => Except.error e
          | Except.ok filtered =>
            Except.ok ([Out.filterGtOut field value filtered.length], filtered)
  else if op = "filter-lt" then
    match parts[1]? with
    | none => Except.error PyError.indexError
    | some field =>
      match parts[2]? with
      | none => Except.error PyError.indexError
      | some vs =>
        match pyFloat vs with
        | none => Except.error
            (PyError.valueError ("could not convert string to float: '" ++ vs ++ "'"))
        | some value =>
          match filter_lt data field value with
          | Except.error e => Except.error e
          | Except.ok filtered =>
            Except.ok ([Out.filterLtOut field value filtered.length], filtered)
  else if op = "population-total" then
    Except.ok ([Out.populationTotalOut (totalPopulation data)], data)
  else if "population".data.isPrefixOf op.data then
    match parts[1]? with
    | none => Except.error PyError.indexError
    | some field =>
      match population_field data field with
      | Except.error e => Except.error e
      | Except.ok out => Except.ok ([out], data)
  else if "percent".data.isPrefixOf op.data then
    match parts[1]? with
    | none => Except.error PyError.indexError
    | some field =>
      match percent_field data field with
      | Except.error e => Except.error e
      | Except.ok out => Except.ok ([out], data)
  else
    Except.error (PyError.valueError "Unknown operation")

/-- One line together with the `except (ValueError, IndexError)` handler of
`execute_operations`: those two exception classes are converted into the
single `"Error: Malformed line <n>: <line>"` output with the dataset left
unchanged, while any other exception (a `KeyError`) keeps propagating. -/
def runLine (data : List CountyDemographics) (lineNo : ℕ) (line : String) :
    Except PyError (List Out × List CountyDemographics) :=
  match execLineCore data line with
  | Except.ok r => Except.ok r
  | Except.error (PyError.valueError _) =>
      Except.ok ([Out.malformed lineNo line], data)
  | Except.error PyError.indexError =>
      Except.ok ([Out.malformed lineNo line], data)
  | Except.error e => Except.error e

/-- Outcome of running a script: the whole output trace and the final
dataset, or — when an uncaught exception escapes the loop — the output
printed before the process terminates abnormally, with the exception. -/
inductive RunResult where
  | ok (outs : List Out) (final : List CountyDemographics)
  | died (outs : List Out) (err : PyError)
deriving DecidableEq, Repr

/-- Prepend already-printed output to a run outcome. -/
def RunResult.prepend (pre : List Out) : RunResult → RunResult
  | RunResult.ok outs final => RunResult.ok (pre ++ outs) final
  | RunResult.died outs err => RunResult.died (pre ++ outs) err

/-- The `for idx, line in enumerate(operations)` loop of
`execute_operations` from line index `idx` on: strip each raw line, skip
blank ones, run the rest through `runLine`, threading the dataset. -/
def execFrom (data : List CountyDemographics) (idx : ℕ) :
    List String → RunResult
  | [] => RunResult.ok [] data
  | raw :: rest =>
    let line := pyStrip raw
    if line = "" then execFrom data (idx + 1) rest
    else
      match runLine data (idx + 1) line with
      | Except.error e => RunResult.died [] e
      | Except.ok (outs, data2) =>
          (execFrom data2 (idx + 1) rest).prepend outs

/-- Source `execute_operations(data, operations_file)` after the file has been
read into its list of lines (the fatal file-not-found path is outside the
per-line semantics modelled here). -/
def execute_operations (data : List CountyDemographics)
    (operations : List String) : RunResult :=
  execFrom data 0 operations

/-- Splitting a string at the first occurrence of `sep` only, as the spec
words field resolution: the part before the first separator and the whole
remainder after it (which may itself contain further separators).  With no
separator present the remainder is empty. -/
def splitFirst (sep : Char) : List Char → List Char × List Char
  | [] => ([], [])
  | c :: cs =>
    if c = sep then ([], cs)
    else ((splitFirst sep cs).1.cons c, (splitFirst sep cs).2)

/-- The four fixed category names of the spec, each naming one of the
record's nested mappings; any other category is unknown.  The match is
case-sensitive and exact. -/
def categoryMap (entry : CountyDemographics) (cat : String) :
    Option (List (String × ℚ)) :=
  if cat = "Population" then some entry.population
  else if cat = "Education" then some entry.education
  else if cat = "Ethnicities" then some entry.ethnicities
  else if cat = "Income" then some entry.income
  else none

/-- Field resolution as the spec words it: split `field` at the first dot
into `Category` and `KeyName` (`KeyName` may itself contain dots), match
`Category` exactly against the four category names and look `KeyName` up in
the corresponding mapping; an unmatched category is the "unknown field"
`ValueError`, an absent key the "missing key" `KeyError`. -/
def get_field_value_spec (entry : CountyDemographics) (field : String) :
    Except PyError ℚ :=
  let sp := splitFirst '.' field.data
  match categoryMap entry (String.mk sp.1) with
  | some d => dictLookup d (String.mk sp.2)
  | none =>
      Except.error (PyError.valueError ("Field '" ++ field ++ "' not found in entry."))

/-- The resolved value of `field` on a record, with resolution failures
read as `0`; used only to state aggregate formulas over datasets on which
`field` resolves for every record. -/
def resolve0 (entry : CountyDemographics) (field : String) : ℚ :=
  match get_field_value entry field with
  | Except.ok x => x
  | Except.error _ => 0

/-- A concrete record for witnesses and counterexamples: state `"CA"`,
2014 population 200, one education percentage `"K" ↦ 10`. -/
def sampleA : CountyDemographics :=
  ⟨"Alpha", "CA", [("2014 Population", 200)], [], [("K", 10)], [], []⟩

/-- A second concrete record: state `"TX"`, 2014 population 50, education
percentages `"K" ↦ 30` and `"L" ↦ 2`. -/
def sampleB : CountyDemographics :=
  ⟨"Beta", "TX", [("2014 Population", 50)], [], [("K", 30), ("L", 2)], [], []⟩

theorem splitSep_ne_nil (sep : Char) (l : List Char) : splitSep sep l ≠ [] := by
  cases l with
  | nil => simp [splitSep]
  | cons c cs =>
    simp only [splitSep]
    split
    · simp
    · split <;> simp

theorem exists_cons_splitSep (sep : Char) (l : List Char) :
    ∃ g gs, splitSep sep l = g :: gs := by
  cases h : splitSep sep l with
  | nil => exact absurd h (splitSep_ne_nil sep l)
  | cons g gs => exact ⟨g, gs, rfl⟩

theorem splitSep_cons_of_eq (sep : Char) (cs : List Char) :
    splitSep sep (sep :: cs) = [] :: splitSep sep cs := by
  simp [splitSep]

theorem splitSep_cons_of_ne (sep c : Char) (cs : List Char) (h : c ≠ sep)
    {g : List Char} {gs : List (List Char)} (hs : splitSep sep cs = g :: gs) :
    splitSep sep (c :: cs) = (c :: g) :: gs := by
  simp only [splitSep, if_neg h, hs]

theorem joinSep_cons_cons (sep : Char) (g g2 : List Char) (gs : List (List Char)) :
    joinSep sep (g :: g2 :: gs) = g ++ sep :: joinSep sep (g2 :: gs) := by
  rfl

theorem joinSep_splitSep (sep : Char) (l : List Char) :
    joinSep sep (splitSep sep l) = l := by
  induction l with
  | nil => rfl
  | cons c cs ih =>
    obtain ⟨g, gs, hs⟩ := exists_cons_splitSep sep cs
    by_cases h : c = sep
    · subst h
      rw [splitSep_cons_of_eq, hs, joinSep_cons_cons, ← hs, ih]
      rfl
    · rw [splitSep_cons_of_ne sep c cs h hs]
      rw [hs] at ih
      cases gs with
      | nil =>
        simpa [joinSep] using ih
      | cons g2 gs2 =>
        rw [joinSep_cons_cons] at ih ⊢
        simp [ih]

theorem splitFirst_fst (sep : Char) (l : List Char) :
    (splitSep sep l).headD [] = (splitFirst sep l).1 := by
  induction l with
  | nil => rfl
  | cons c cs ih =>
    obtain ⟨g, gs, hs⟩ := exists_cons_splitSep sep cs
    by_cases h : c = sep
    · subst h
      rw [splitSep_cons_of_eq]
      simp [splitFirst]
    · rw [splitSep_cons_of_ne sep c cs h hs]
      rw [hs] at ih
      simp only [splitFirst, if_neg h, List.headD_cons]
      simpa using congrArg (c :: ·) ih

theorem splitFirst_snd (sep : Char) (l : List Char) :
    joinSep sep (splitSep sep l).tail = (splitFirst sep l).2 := by
  induction l with
  | nil => rfl
  | cons c cs ih =>
    obtain ⟨g, gs, hs⟩ := exists_cons_splitSep sep cs
    by_cases h : c = sep
    · subst h
      rw [splitSep_cons_of_eq]
      simp only [List.tail_cons, splitFirst, if_pos rfl]
      exact joinSep_splitSep _ cs
    · rw [splitSep_cons_of_ne sep c cs h hs]
      rw [hs] at ih
      simp only [splitFirst, if_neg h, List.tail_cons]
      simpa using ih

theorem filter_gt_sublist (field : String) (v : ℚ)
    (data res : List CountyDemographics) (h : filter_gt data field v = Except.ok res) :
    res.Sublist data := by
  induction data generalizing res with
  | nil =>
    simp only [filter_gt] at h
    injection h with h
    subst h
    exact List.Sublist.refl []
  | cons e rest ih =>
    simp only [filter_gt] at h
    split at h
    · cases h
    · split at h
      · cases h
      next l hl =>
        injection h with h
        subst h
        split
        · exact (ih l hl).cons₂ e
        · exact (ih l hl).cons e

theorem filter_gt_mem (field : String) (v : ℚ)
    (data res : List CountyDemographics) (h : filter_gt data field v = Except.ok res) :
    ∀ e ∈ res, ∃ x, get_field_value e field = Except.ok x ∧ x > v := by
  induction data generalizing res with
  | nil =>
    simp only [filter_gt] at h
    injection h with h
    subst h
    simp
  | cons e rest ih =>
    simp only [filter_gt] at h
    split at h
    · cases h
    next x hx =>
      split at h
      · cases h
      next l hl =>
        injection h with h
        subst h
        intro a ha
        split at ha
        next hxv =>
          rcases List.mem_cons.mp ha with rfl | ha
          · exact ⟨x, hx, hxv⟩
          · exact ih l hl a ha
        · exact ih l hl a ha

theorem filter_gt_of_all (field : String) (v : ℚ)
    (data : List CountyDemographics)
    (h : ∀ e ∈ data, ∃ x, get_field_value e field = Except.ok x ∧ x > v) :
    filter_gt data field v = Except.ok data := by
  induction data with
  | nil => rfl
  | cons e rest ih =>
    obtain ⟨x, hx, hxv⟩ := h e (List.mem_cons_self e rest)
    simp only [filter_gt, hx, ih fun a ha => h a (List.mem_cons_of_mem e ha),
      if_pos hxv]

theorem filter_lt_sublist (field : String) (v : ℚ)
    (data res : List CountyDemographics) (h : filter_lt data field v = Except.ok res) :
    res.Sublist data := by
  induction data generalizing res with
  | nil =>
    simp only [filter_lt] at h
    injection h with h
    subst h
    exact List.Sublist.refl []
  | cons e rest ih =>
    simp only [filter_lt] at h
    split at h
    · cases h
    · split at h
      · cases h
      next l hl =>
        injection h with h
        subst h
        split
        · exact (ih l hl).cons₂ e
        · exact (ih l hl).cons e

theorem filter_lt_mem (field : String) (v : ℚ)
    (data res : List CountyDemographics) (h : filter_lt data field v = Except.ok res) :
    ∀ e ∈ res, ∃ x, get_field_value e field = Except.ok x ∧ x < v := by
  induction data generalizing res with
  | nil =>
    simp only [filter_lt] at h
    injection h with h
    subst h
    simp
  | cons e rest ih =>
    simp only [filter_lt] at h
    split at h
    · cases h
    next x hx =>
      split at h
      · cases h
      next l hl =>
        injection h with h
        subst h
        intro a ha
        split at ha
        next hxv =>
          rcases List.mem_cons.mp ha with rfl | ha
          · exact ⟨x, hx, hxv⟩
          · exact ih l hl a ha
        · exact ih l hl a ha

theorem filter_lt_of_resolved (field : String) (v : ℚ)
    (data : List CountyDemographics)
    (h : ∀ e ∈ data, ∃ x, get_field_value e field = Except.ok x) :
    ∃ res, filter_lt data field v = Except.ok res ∧
      res = data.filter (fun e => decide (resolve0 e field < v)) := by
  induction data with
  | nil => exact ⟨[], rfl, rfl⟩
  | cons e rest ih =>
    obtain ⟨x, hx⟩ := h e (List.mem_cons_self e rest)
    obtain ⟨res, hres, hfil⟩ := ih fun a ha => h a (List.mem_cons_of_mem e ha)
    have hr0 : resolve0 e field = x := by simp [resolve0, hx]
    refine ⟨if x < v then e :: res else res, ?_, ?_⟩
    · simp only [filter_lt, hx, hres]
    · rw [hfil]
      by_cases hxv : x < v <;> simp [List.filter_cons, hr0, hxv]

theorem filter_lt_of_all_not (field : String) (v : ℚ)
    (data : List CountyDemographics)
    (h : ∀ e ∈ data, ∃ x, get_field_value e field = Except.ok x ∧ ¬x < v) :
    filter_lt data field v = Except.ok [] := by
  induction data with
  | nil => rfl
  | cons e rest ih =>
    obtain ⟨x, hx, hxv⟩ := h e (List.mem_cons_self e rest)
    simp only [filter_lt, hx, ih fun a ha => h a (List.mem_cons_of_mem e ha),
      if_neg hxv]

theorem filter_lt_of_all (field : String) (v : ℚ)
    (data : List CountyDemographics)
    (h : ∀ e ∈ data, ∃ x, get_field_value e field = Except.ok x ∧ x < v) :
    filter_lt data field v = Except.ok data := by
  induction data with
  | nil => rfl
  | cons e rest ih =>
    obtain ⟨x, hx, hxv⟩ := h e (List.mem_cons_self e rest)
    simp only [filter_lt, hx, ih fun a ha => h a (List.mem_cons_of_mem e ha),
      if_pos hxv]

theorem subPopulation_ok (field : String) (data : List CountyDemographics)
    (h : ∀ e ∈ data, ∃ x, get_field_value e field = Except.ok x) :
    subPopulation data field = Except.ok
      ((data.map (fun e =>
        dictGetD e.population "2014 Population" 0 * (resolve0 e field / 100))).sum) := by
  induction data with
  | nil => rfl
  | cons e rest ih =>
    obtain ⟨x, hx⟩ := h e (List.mem_cons_self e rest)
    have hr0 : resolve0 e field = x := by simp [resolve0, hx]
    simp only [subPopulation, hx, ih fun a ha => h a (List.mem_cons_of_mem e ha),
      List.map_cons, List.sum_cons, hr0]

theorem execFrom_cons_blank (data : List CountyDemographics) (idx : ℕ)
    (raw : String) (rest : List String) (h : pyStrip raw = "") :
    execFrom data idx (raw :: rest) = execFrom data (idx + 1) rest := by
  simp [execFrom, h]

theorem execFrom_cons_run (data : List CountyDemographics) (idx : ℕ)
    (raw : String) (rest : List String) (outs : List Out)
    (d2 : List CountyDemographics) (hne : pyStrip raw ≠ "")
    (h : runLine data (idx + 1) (pyStrip raw) = Except.ok (outs, d2)) :
    execFrom data idx (raw :: rest) = (execFrom d2 (idx + 1) rest).prepend outs := by
  simp only [execFrom, if_neg hne, h]

theorem execFrom_cons_died (data : List CountyDemographics) (idx : ℕ)
    (raw : String) (rest : List String) (e : PyError) (hne : pyStrip raw ≠ "")
    (h : runLine data (idx + 1) (pyStrip raw) = Except.error e) :
    execFrom data idx (raw :: rest) = RunResult.died [] e := by
  simp only [execFrom, if_neg hne, h]

theorem runLine_catch_valueError (data : List CountyDemographics) (n : ℕ)
    (line m : String)
    (h : execLineCore data line = Except.error (PyError.valueError m)) :
    runLine data n line = Except.ok ([Out.malformed n line], data) := by
  simp only [runLine, h]

theorem runLine_catch_indexError (data : List CountyDemographics) (n : ℕ)
    (line : String)
    (h : execLineCore data line = Except.error PyError.indexError) :
    runLine data n line = Except.ok ([Out.malformed n line], data) := by
  simp only [runLine, h]

theorem runLine_keyError (data : List CountyDemographics) (n : ℕ)
    (line k : String)
    (h : execLineCore data line = Except.error (PyError.keyError k)) :
    runLine data n line = Except.error (PyError.keyError k) := by
  simp only [runLine, h]

theorem runLine_ok (data : List CountyDemographics) (n : ℕ) (line : String)
    (r : List Out × List CountyDemographics)
    (h : execLineCore data line = Except.ok r) :
    runLine data n line = Except.ok r := by
  simp only [runLine, h]

theorem execLineCore_unknown (data : List CountyDemographics) (line : String)
    (op : String)
    (hop : ((splitSep ':' line.data).map String.mk).headD "" = op)
    (h1 : op ≠ "display") (h2 : op ≠ "filter-state") (h3 : op ≠ "filter-gt")
    (h4 : op ≠ "filter-lt") (h5 : op ≠ "population-total")
    (h6 : "population".data.isPrefixOf op.data = false)
    (h7 : "percent".data.isPrefixOf op.data = false) :
    execLineCore data line = Except.error (PyError.valueError "Unknown operation") := by
  simp only [execLineCore, hop, if_neg h1, if_neg h2, if_neg h3, if_neg h4,
    if_neg h5, h6, h7]
  simp

theorem execLineCore_filter_lt (data : List CountyDemographics) (line : String)
    (field vs : String) (v : ℚ) (res : List CountyDemographics)
    (hparts : (splitSep ':' line.data).map String.mk = ["filter-lt", field, vs])
    (hv : pyFloat vs = some v)
    (hres : filter_lt data field v = Except.ok res) :
    execLineCore data line =
      Except.ok ([Out.filterLtOut field v res.length], res) := by
  simp only [execLineCore, hparts]
  norm_num
  simp [hv, hres]

/-- C3: on every record and field string, `get_field_value` behaves exactly
as the spec's field-resolution rule: the field is split into category and
key at the first dot only (the key may itself contain dots), the category
is matched case-sensitively and exactly against the four names
`Population`, `Education`, `Ethnicities`, `Income` and the key looked up in
the corresponding mapping, and the "unknown field" `ValueError` is produced
exactly when the category prefix matches none of the four names. -/
theorem C3_field_resolution (entry : CountyDemographics) (field : String) :
    get_field_value entry field = get_field_value_spec entry field := by
  simp only [get_field_value, get_field_value_spec, categoryMap]
  rw [splitFirst_fst '.' field.data, splitFirst_snd '.' field.data]
  set cat := String.mk (splitFirst '.' field.data).1 with hcat
  by_cases h1 : cat = "Education" <;> by_cases h2 : cat = "Ethnicities" <;>
    by_cases h3 : cat = "Income" <;> by_cases h4 : cat = "Population" <;>
    simp_all <;>
    first
      | exact absurd (hcat.trans h1.symm) (by decide)
      | exact absurd (hcat.trans h2.symm) (by decide)
      | exact absurd (hcat.trans h3.symm) (by decide)

/-- C7: whenever `filter-gt` with threshold `v` succeeds, applying
`filter-lt` with the same threshold to its result succeeds and keeps
nothing: strict-greater then strict-less on one threshold excludes every
record. -/
theorem C7_gt_then_lt_empty (data : List CountyDemographics) (field : String)
    (v : ℚ) (res : List CountyDemographics)
    (h : filter_gt data field v = Except.ok res) :
    filter_lt res field v = Except.ok [] := by
  apply filter_lt_of_all_not
  intro e he
  obtain ⟨x, hx, hxv⟩ := filter_gt_mem field v data res h e he
  exact ⟨x, hx, lt_asymm hxv⟩

/-- C7 witness at a concrete dataset and threshold. -/
theorem C7_witness :
    filter_gt [sampleA, sampleB] "Education.K" (20 : ℚ) = Except.ok [sampleB] ∧
    filter_lt [sampleB] "Education.K" (20 : ℚ) = Except.ok [] := by
  have h : filter_gt [sampleA, sampleB] "Education.K" (20 : ℚ) =
      Except.ok [sampleB] := by with_unfolding_all rfl
  exact ⟨h, C7_gt_then_lt_empty [sampleA, sampleB] "Education.K" 20 [sampleB] h⟩

/-- C8: each successful filter operation keeps at most as many records as
it was given, every surviving record satisfies the filter's predicate
(state equality, strictly-greater, strictly-less), and re-applying the same
filter to its own result changes nothing. -/
theorem C8_filter_invariants (data : List CountyDemographics)
    (st field : String) (v : ℚ) :
    ((filter_state data st).length ≤ data.length ∧
      (∀ e ∈ filter_state data st, e.state = st) ∧
      filter_state (filter_state data st) st = filter_state data st) ∧
    (∀ res, filter_gt data field v = Except.ok res →
      res.length ≤ data.length ∧
      (∀ e ∈ res, ∃ x, get_field_value e field = Except.ok x ∧ x > v) ∧
      filter_gt res field v = Except.ok res) ∧
    (∀ res, filter_lt data field v = Except.ok res →
      res.length ≤ data.length ∧
      (∀ e ∈ res, ∃ x, get_field_value e field = Except.ok x ∧ x < v) ∧
      filter_lt res field v = Except.ok res) := by
  refine ⟨⟨?_, ?_, ?_⟩, fun res h => ⟨?_, ?_, ?_⟩, fun res h => ⟨?_, ?_, ?_⟩⟩
  · exact List.length_filter_le _ _
  · intro e he
    exact of_decide_eq_true (List.mem_filter.mp he).2
  · simp only [filter_state]
    rw [List.filter_eq_self.mpr]
    intro a ha
    exact (List.mem_filter.mp ha).2
  · exact (filter_gt_sublist field v data res h).length_le
  · exact filter_gt_mem field v data res h
  · exact filter_gt_of_all field v res (filter_gt_mem field v data res h)
  · exact (filter_lt_sublist field v data res h).length_le
  · exact filter_lt_mem field v data res h
  · exact filter_lt_of_all field v res (filter_lt_mem field v data res h)

/-- C8 witness: the `filter-gt` conjunct at a concrete dataset. -/
theorem C8_witness :
    filter_gt [sampleA, sampleB] "Education.K" (20 : ℚ) = Except.ok [sampleB] ∧
    ([sampleB].length ≤ [sampleA, sampleB].length ∧
      (∀ e ∈ [sampleB], ∃ x, get_field_value e "Education.K" = Except.ok x ∧
        x > (20 : ℚ)) ∧
      filter_gt [sampleB] "Education.K" (20 : ℚ) = Except.ok [sampleB]) := by
  have h : filter_gt [sampleA, sampleB] "Education.K" (20 : ℚ) =
      Except.ok [sampleB] := by with_unfolding_all rfl
  exact ⟨h, (C8_filter_invariants [sampleA, sampleB] "CA" "Education.K" 20).2.1
    [sampleB] h⟩

/-- C10: every successful filter returns an order-preserving subsequence of
its input (no reordering, no duplication, no new records), stated as
`List.Sublist`. -/
theorem C10_filters_are_sublists (data : List CountyDemographics)
    (st field : String) (v : ℚ) :
    (filter_state data st).Sublist data ∧
    (∀ res, filter_gt data field v = Except.ok res → res.Sublist data) ∧
    (∀ res, filter_lt data field v = Except.ok res → res.Sublist data) := by
  exact ⟨List.filter_sublist data,
    fun res h => filter_gt_sublist field v data res h,
    fun res h => filter_lt_sublist field v data res h⟩

/-- C10 witness: the `filter-lt` conjunct at a concrete dataset. -/
theorem C10_witness :
    filter_lt [sampleA, sampleB] "Education.K" (20 : ℚ) = Except.ok [sampleA] ∧
    List.Sublist [sampleA] [sampleA, sampleB] := by
  have h : filter_lt [sampleA, sampleB] "Education.K" (20 : ℚ) =
      Except.ok [sampleA] := by with_unfolding_all rfl
  exact ⟨h, (C10_filters_are_sublists [sampleA, sampleB] "CA" "Education.K" 20).2.2
    [sampleA] h⟩

/-- C4: when `field` resolves on every record, `population-<field>` prints
the weighted sum `Σ population["2014 Population"] × (value / 100)` (missing
population treated as `0`) formatted with up to 15 fractional digits and
trailing zeros and a dangling decimal point stripped; and `percent-<field>`
measures against the total `Σ population["2014 Population"]` (missing
treated as `0`). -/
theorem C4_weighted_aggregates (data : List CountyDemographics)
    (field : String)
    (h : ∀ e ∈ data, ∃ x, get_field_value e field = Except.ok x) :
    population_field data field = Except.ok (Out.populationFieldOut field
      (fmt15 ((data.map (fun e =>
        dictGetD e.population "2014 Population" 0 *
          (resolve0 e field / 100))).sum))) ∧
    percent_field data field = Except.ok
      (if (data.map (fun e => dictGetD e.population "2014 Population" 0)).sum > 0
       then Out.percentOut field
         ((data.map (fun e =>
             dictGetD e.population "2014 Population" 0 *
               (resolve0 e field / 100))).sum /
           (data.map (fun e => dictGetD e.population "2014 Population" 0)).sum
           * 100)
       else Out.percentZeroOut field) := by
  have hs := subPopulation_ok field data h
  constructor
  · simp only [population_field, hs]
  · simp only [percent_field, hs, totalPopulation]

/-- C4 witness at a one-record dataset. -/
theorem C4_witness :
    (∀ e ∈ [sampleA], ∃ x, get_field_value e "Education.K" = Except.ok x) ∧
    population_field [sampleA] "Education.K" =
      Except.ok (Out.populationFieldOut "Education.K"
        (fmt15 (([sampleA].map (fun e =>
          dictGetD e.population "2014 Population" 0 *
            (resolve0 e "Education.K" / 100))).sum))) := by
  have h : ∀ e ∈ [sampleA], ∃ x, get_field_value e "Education.K" = Except.ok x := by
    intro e he
    rw [List.mem_singleton] at he
    subst he
    exact ⟨10, by with_unfolding_all rfl⟩
  exact ⟨h, (C4_weighted_aggregates [sampleA] "Education.K" h).1⟩

/-- C9: whenever the weighted sum succeeds, `percent-<field>` prints the
fixed `0.000000` line when the total population is zero (in particular on
the empty dataset) and `(sub_population / total_population) × 100` when the
total is strictly positive. -/
theorem C9_percent_zero_total (data : List CountyDemographics)
    (field : String) (sub : ℚ)
    (hsub : subPopulation data field = Except.ok sub) :
    (totalPopulation data = 0 →
       percent_field data field = Except.ok (Out.percentZeroOut field)) ∧
    (0 < totalPopulation data →
       percent_field data field =
         Except.ok (Out.percentOut field (sub / totalPopulation data * 100))) := by
  constructor
  · intro h0
    simp only [percent_field, hsub, h0]
    norm_num
  · intro hpos
    simp only [percent_field, hsub, if_pos hpos]

/-- C9 witness on the empty dataset. -/
theorem C9_witness :
    subPopulation [] "Education.K" = Except.ok 0 ∧
    totalPopulation [] = 0 ∧
    percent_field [] "Education.K" =
      Except.ok (Out.percentZeroOut "Education.K") := by
  refine ⟨rfl, rfl, ?_⟩
  exact (C9_percent_zero_total [] "Education.K" 0 rfl).1 rfl

/-- C1 counterexample: a missing key during field resolution in a filter is
a `KeyError`, which the per-line handler (catching only `ValueError` and
`IndexError`) does not contain — the run terminates abnormally instead of
continuing, contradicting the claim that no recoverable error escapes. -/
theorem C1_counterexample :
    execute_operations [sampleA] ["filter-gt:Education.x:5"] =
      RunResult.died [] (PyError.keyError "x") := by
  with_unfolding_all rfl

/-- C1 (amended): every per-line failure raising `ValueError` (malformed or
non-numeric arguments, unknown opcode, unknown field category) or
`IndexError` is caught at single-line granularity — exactly one malformed-
line output naming the 1-based line number, execution continuing on the
unchanged dataset — but a `KeyError` (missing key during field resolution)
escapes and terminates processing. -/
theorem C1_amended (data : List CountyDemographics) (idx : ℕ) (raw : String)
    (rest : List String) (hne : pyStrip raw ≠ "") :
    (∀ m, execLineCore data (pyStrip raw) =
        Except.error (PyError.valueError m) →
      execFrom data idx (raw :: rest) =
        (execFrom data (idx + 1) rest).prepend
          [Out.malformed (idx + 1) (pyStrip raw)]) ∧
    (execLineCore data (pyStrip raw) = Except.error PyError.indexError →
      execFrom data idx (raw :: rest) =
        (execFrom data (idx + 1) rest).prepend
          [Out.malformed (idx + 1) (pyStrip raw)]) ∧
    (∀ k, execLineCore data (pyStrip raw) = Except.error (PyError.keyError k) →
      execFrom data idx (raw :: rest) = RunResult.died [] (PyError.keyError k)) := by
  refine ⟨fun m h => ?_, fun h => ?_, fun k h => ?_⟩
  · exact execFrom_cons_run _ _ _ _ _ _ hne (runLine_catch_valueError _ _ _ _ h)
  · exact execFrom_cons_run _ _ _ _ _ _ hne (runLine_catch_indexError _ _ _ h)
  · exact execFrom_cons_died _ _ _ _ _ hne (runLine_keyError _ _ _ _ h)

/-- C1 witness: an unknown opcode is contained and the loop continues. -/
theorem C1_amended_witness :
    pyStrip " badop " ≠ "" ∧
    execLineCore ([] : List CountyDemographics) (pyStrip " badop ") =
      Except.error (PyError.valueError "Unknown operation") ∧
    execFrom ([] : List CountyDemographics) 0 [" badop "] =
      (execFrom ([] : List CountyDemographics) 1 []).prepend
        [Out.malformed 1 (pyStrip " badop ")] := by
  refine ⟨by decide, by with_unfolding_all rfl, ?_⟩
  exact (C1_amended [] 0 " badop " [] (by decide)).1 "Unknown operation"
    (by with_unfolding_all rfl)

/-- C2 counterexample: a key absent from the category mapping raises
`KeyError`, which the `except ValueError` inside `population_field` does
not catch — the failure is not contained at operation granularity,
contradicting the claim's "whether the category prefix is unknown or the
key is absent". -/
theorem C2_counterexample :
    population_field [sampleA] "Education.x" =
      Except.error (PyError.keyError "x") := by
  with_unfolding_all rfl

/-- C2 (amended): inside `population-<field>`/`percent-<field>` only an
unknown category prefix (a `ValueError`) is caught at whole-operation
granularity and printed as `"Error: <message>"`; a missing key (a
`KeyError`) propagates out of the operation uncaught. -/
theorem C2_amended (data : List CountyDemographics) (field : String) :
    (∀ m, subPopulation data field = Except.error (PyError.valueError m) →
      population_field data field = Except.ok (Out.errMsg m) ∧
      percent_field data field = Except.ok (Out.errMsg m)) ∧
    (∀ k, subPopulation data field = Except.error (PyError.keyError k) →
      population_field data field = Except.error (PyError.keyError k) ∧
      percent_field data field = Except.error (PyError.keyError k)) := by
  constructor
  · intro m h
    constructor
    · simp only [population_field, h]
    · simp only [percent_field, h]
  · intro k h
    constructor
    · simp only [population_field, h]
    · simp only [percent_field, h]

/-- C2 witness: the unknown-category message is caught and printed. -/
theorem C2_amended_witness :
    subPopulation [sampleA] "Bogus.K" =
      Except.error (PyError.valueError "Field 'Bogus.K' not found in entry.") ∧
    population_field [sampleA] "Bogus.K" =
      Except.ok (Out.errMsg "Field 'Bogus.K' not found in entry.") := by
  have h : subPopulation [sampleA] "Bogus.K" =
      Except.error (PyError.valueError "Field 'Bogus.K' not found in entry.") := by
    with_unfolding_all rfl
  exact ⟨h, ((C2_amended [sampleA] "Bogus.K").1 _ h).1⟩

/-- C5 counterexample: after a `filter-lt` line that discards the only
record, the following `display` sees the empty dataset, not the one from
before the line — `filter-lt` does replace the current dataset. -/
theorem C5_counterexample :
    execute_operations [sampleA] ["filter-lt:Education.K:5", "display"] =
      RunResult.ok [Out.filterLtOut "Education.K" 5 0, Out.displayOut []] [] ∧
    ([] : List CountyDemographics) ≠ [sampleA] := by
  constructor
  · with_unfolding_all rfl
  · simp

/-- C5 (amended): a successful `filter-lt` line keeps exactly the records
whose resolved field value is strictly below the threshold, prints the
count kept, and replaces the current dataset — all subsequent lines run
against the filtered dataset, exactly as `filter-gt` does. -/
theorem C5_amended (data : List CountyDemographics) (idx : ℕ) (raw : String)
    (rest : List String) (field vs : String) (v : ℚ)
    (res : List CountyDemographics)
    (hne : pyStrip raw ≠ "")
    (hparts : (splitSep ':' (pyStrip raw).data).map String.mk =
      ["filter-lt", field, vs])
    (hv : pyFloat vs = some v)
    (hres : filter_lt data field v = Except.ok res) :
    execFrom data idx (raw :: rest) =
      (execFrom res (idx + 1) rest).prepend
        [Out.filterLtOut field v res.length] := by
  exact execFrom_cons_run _ _ _ _ _ _ hne
    (runLine_ok _ _ _ _
      (execLineCore_filter_lt data (pyStrip raw) field vs v res hparts hv hres))

/-- C5 witness: a concrete `filter-lt` line that empties the dataset, the
continuation running on the emptied dataset. -/
theorem C5_amended_witness :
    pyStrip "filter-lt:Education.K:5" ≠ "" ∧
    (splitSep ':' (pyStrip "filter-lt:Education.K:5").data).map String.mk =
      ["filter-lt", "Education.K", "5"] ∧
    pyFloat "5" = some 5 ∧
    filter_lt [sampleA] "Education.K" 5 = Except.ok [] ∧
    execFrom [sampleA] 0 ["filter-lt:Education.K:5", "display"] =
      (execFrom [] 1 ["display"]).prepend [Out.filterLtOut "Education.K" 5 0] := by
  refine ⟨by decide, by decide, by with_unfolding_all rfl,
    by with_unfolding_all rfl, ?_⟩
  exact C5_amended [sampleA] 0 "filter-lt:Education.K:5" ["display"]
    "Education.K" "5" 5 [] (by decide) (by decide)
    (by with_unfolding_all rfl) (by with_unfolding_all rfl)

/-- C6 counterexample: the interpreter strips each line before executing
it, so the single error line for an unknown opcode carries the stripped
text, not the exact original text with its leading and trailing
whitespace. -/
theorem C6_counterexample :
    execute_operations [sampleA] [" wrongop "] =
      RunResult.ok [Out.malformed 1 "wrongop"] [sampleA] ∧
    "wrongop" ≠ " wrongop " := by
  constructor
  · with_unfolding_all rfl
  · decide

/-- C6 (amended): a line whose opcode matches no operation produces exactly
one error line carrying the correct 1-based line number and the stripped
text of the line, and the dataset visible to subsequent operations is
unchanged. -/
theorem C6_amended (data : List CountyDemographics) (idx : ℕ) (raw : String)
    (rest : List String) (op : String)
    (hne : pyStrip raw ≠ "")
    (hop : ((splitSep ':' (pyStrip raw).data).map String.mk).headD "" = op)
    (h1 : op ≠ "display") (h2 : op ≠ "filter-state") (h3 : op ≠ "filter-gt")
    (h4 : op ≠ "filter-lt") (h5 : op ≠ "population-total")
    (h6 : "population".data.isPrefixOf op.data = false)
    (h7 : "percent".data.isPrefixOf op.data = false) :
    execFrom data idx (raw :: rest) =
      (execFrom data (idx + 1) rest).prepend
        [Out.malformed (idx + 1) (pyStrip raw)] := by
  exact execFrom_cons_run _ _ _ _ _ _ hne
    (runLine_catch_valueError _ _ _ _
      (execLineCore_unknown data (pyStrip raw) op hop h1 h2 h3 h4 h5 h6 h7))

/-- C6 witness: a concrete unknown opcode inside a two-line script. -/
theorem C6_amended_witness :
    pyStrip " nosuchop:1 " ≠ "" ∧
    ((splitSep ':' (pyStrip " nosuchop:1 ").data).map String.mk).headD "" =
      "nosuchop" ∧
    execFrom [sampleB] 0 [" nosuchop:1 ", "display"] =
      (execFrom [sampleB] 1 ["display"]).prepend
        [Out.malformed 1 (pyStrip " nosuchop:1 ")] := by
  refine ⟨by decide, by decide, ?_⟩
  exact C6_amended [sampleB] 0 " nosuchop:1 " ["display"] "nosuchop"
    (by decide) (by decide) (by decide) (by decide) (by decide) (by decide)
    (by decide) (by decide) (by decide)

end Hw4
